import Mathlib

/-!
Verification of the annotation coordinate, storage, hit-testing and
migration engine of OpenRAGSearch (class `AnnotationManager` in
`src/static/js/modules/interactiveLoading.js`, plus `Utils.calculateBoundingBox`).

Numbers are modelled as rationals (`ℚ`): the JavaScript source performs only
field arithmetic (add, subtract, multiply, divide, min, max, abs, compare) on
IEEE doubles, and every claim is stated up to floating-point tolerance, so the
exact-arithmetic model is the intended semantics.  The one square root in the
source (`Math.sqrt` inside `distanceToLineSegment`) is handled by embedding the
*squared* distance (`distanceToLineSegmentSq`, branch for branch the same
function without the final `sqrt`) and relating it to the Euclidean distance
via `Real.sqrt` in the theorem statements; `sqrt d <= 10` iff `d <= 100`.
-/

namespace OpenRAG

/-- A page viewport as supplied by the PDF renderer: `{width, height, rotation, scale}`.
Only `width` and `height` are read by the annotation engine. -/
structure Viewport where
  width : ℚ
  height : ℚ
  rotation : ℚ
  scale : ℚ
  deriving DecidableEq, Repr

/-- A 2-D point `{x, y}`. -/
structure Point where
  x : ℚ
  y : ℚ
  deriving DecidableEq, Repr

/-- The closed set of annotation type tags used by the source
(`highlight`, `underline`, `strikethrough`, `draw`, `note`). -/
inductive AnnotationType where
  | highlight
  | underline
  | strikethrough
  | draw
  | note
  deriving DecidableEq, Repr

/-- The `coordinates` record `{startX, startY, endX, endY}` of an annotation. -/
structure Coordinates where
  startX : ℚ
  startY : ℚ
  endX : ℚ
  endY : ℚ
  deriving DecidableEq, Repr

/-- One annotation record, as built by `createAnnotation` /
`createDrawAnnotation` / `createNoteAnnotation`: `path` is present only for
`draw` records, `content` only for `note` records (`none` models an absent
JavaScript field). -/
structure Annotation where
  id : Nat
  type : AnnotationType
  color : String
  coordinates : Coordinates
  path : Option (List Point) := none
  page : Nat
  content : Option String := none
  timestamp : String := ""
  deriving DecidableEq, Repr

/-- Source `canvasToNormalized(x, y, viewport)`: divide by the viewport dimensions. -/
def canvasToNormalized (x y : ℚ) (viewport : Viewport) : Point :=
  { x := x / viewport.width, y := y / viewport.height }

/-- Source `normalizedToCanvas(normalizedX, normalizedY, viewport)`: multiply by the
viewport dimensions. -/
def normalizedToCanvas (normalizedX normalizedY : ℚ) (viewport : Viewport) : Point :=
  { x := normalizedX * viewport.width, y := normalizedY * viewport.height }

/-- C1: for every point and every viewport with positive width and height,
`normalizedToCanvas(canvasToNormalized(p, v), v) = p` (exact in the
rational model, hence within floating-point tolerance in the source). -/
theorem canvasToNormalized_roundTrip (x y : ℚ) (v : Viewport)
    (hw : 0 < v.width) (hh : 0 < v.height) :
    normalizedToCanvas (canvasToNormalized x y v).x (canvasToNormalized x y v).y v
      = { x := x, y := y } := by
  simp [canvasToNormalized, normalizedToCanvas, Point.mk.injEq,
    div_mul_cancel₀, hw.ne', hh.ne']

/-- Witness for C1 at the concrete point `(120, 90)` on an `800 × 600` viewport. -/
theorem canvasToNormalized_roundTrip_witness :
    (0 : ℚ) < (Viewport.mk 800 600 0 1).width ∧
    (0 : ℚ) < (Viewport.mk 800 600 0 1).height ∧
    normalizedToCanvas (canvasToNormalized 120 90 (Viewport.mk 800 600 0 1)).x
        (canvasToNormalized 120 90 (Viewport.mk 800 600 0 1)).y (Viewport.mk 800 600 0 1)
      = { x := 120, y := 90 } :=
  ⟨by norm_num, by norm_num,
    canvasToNormalized_roundTrip 120 90 (Viewport.mk 800 600 0 1)
      (by norm_num) (by norm_num)⟩

/-- Source `areCoordinatesNormalized(annotation, viewport)`: with no viewport, assume
already normalized (`true`); otherwise classify as normalized when
`Math.max(|startX|, |startY|, |endX|, |endY|) <= 2.0`. -/
def areCoordinatesNormalized ( annotation : Annotation) (viewport : Option Viewport) : Bool :=
  match viewport with
  | none => true
  | some _ =>
    let c := annotation.coordinates
    let maxCoord := max (max |c.startX| |c.startY|) (max |c.endX| |c.endY|)
    decide (maxCoord ≤ 2)

/-- Source `migratePixelToNormalized(annotation, viewport)`: return the record
unchanged when the viewport is absent or the classifier reports normalized;
otherwise rewrite `coordinates` (and, for `draw` records with a path, every
path point) through `canvasToNormalized`. -/
def migratePixelToNormalized ( annotation : Annotation) (viewport : Option Viewport) : Annotation :=
  match viewport with
  | none => annotation
  | some vp =>
    if areCoordinatesNormalized annotation viewport then annotation
    else
      let normalizedStart :=
        canvasToNormalized annotation.coordinates.startX annotation.coordinates.startY vp
      let normalizedEnd :=
        canvasToNormalized annotation.coordinates.endX annotation.coordinates.endY vp
      { annotation with
        coordinates :=
          { startX := normalizedStart.x, startY := normalizedStart.y,
            endX := normalizedEnd.x, endY := normalizedEnd.y },
        path :=
          if annotation.type = AnnotationType.draw then
            annotation.path.map (fun path => path.map (fun p => canvasToNormalized p.x p.y vp))
          else annotation.path }

/-- A record the classifier reports as normalized passes through
`migratePixelToNormalized` unchanged. -/
theorem migrate_of_normalized (a : Annotation) (v : Option Viewport)
    (h : areCoordinatesNormalized a v = true) : migratePixelToNormalized a v = a := by
  cases v with
  | none => rfl
  | some vp => simp [migratePixelToNormalized, h]

/-- C9: `migratePixelToNormalized` rewrites at most the `coordinates` and
`path` fields; `id`, `type`, `color`, `page`, `content` and `timestamp` are
returned unchanged for every record and every (possibly absent) viewport. -/
theorem migratePixelToNormalized_frame (a : Annotation) (viewport : Option Viewport) :
    (migratePixelToNormalized a viewport).id = a.id ∧
    (migratePixelToNormalized a viewport).type = a.type ∧
    (migratePixelToNormalized a viewport).color = a.color ∧
    (migratePixelToNormalized a viewport).page = a.page ∧
    (migratePixelToNormalized a viewport).content = a.content ∧
    (migratePixelToNormalized a viewport).timestamp = a.timestamp := by
  cases viewport with
  | none => simp [migratePixelToNormalized]
  | some vp =>
    simp only [migratePixelToNormalized]
    split <;> simp

/-- A legacy pixel-space record whose coordinates exceed twice the viewport
dimensions: one migration maps `3000` on a `1000`-wide viewport to `3`, which
the classifier again reports as pixel space. -/
def legacyFarRecord : Annotation :=
  { id := 1, type := AnnotationType.highlight, color := "#ffff00",
    coordinates := { startX := 3000, startY := 3000, endX := 3000, endY := 3000 },
    page := 1 }

/-- The `1000 × 1000` viewport used in concrete scenarios. -/
def squareViewport : Viewport := { width := 1000, height := 1000, rotation := 0, scale := 1 }

/-- On a record the classifier reports as pixel space, migration divides each
coordinate by the matching viewport dimension. -/
theorem migrate_coords_of_not_normalized (a : Annotation) (vp : Viewport)
    (h : areCoordinatesNormalized a (some vp) = false) :
    (migratePixelToNormalized a (some vp)).coordinates =
      { startX := a.coordinates.startX / vp.width,
        startY := a.coordinates.startY / vp.height,
        endX := a.coordinates.endX / vp.width,
        endY := a.coordinates.endY / vp.height } := by
  simp [migratePixelToNormalized, h, canvasToNormalized]

/-- Record `legacyFarRecord` is classified as pixel space. -/
theorem legacyFarRecord_not_normalized :
    areCoordinatesNormalized legacyFarRecord (some squareViewport) = false := by
  simp only [areCoordinatesNormalized, legacyFarRecord, decide_eq_false_iff_not]
  norm_num

/-- After one migration, `legacyFarRecord` has coordinate `3`, which the
classifier still reports as pixel space. -/
theorem legacyFarRecord_migrated_not_normalized :
    areCoordinatesNormalized
      (migratePixelToNormalized legacyFarRecord (some squareViewport))
      (some squareViewport) = false := by
  simp only [areCoordinatesNormalized,
    migrate_coords_of_not_normalized _ _ legacyFarRecord_not_normalized,
    decide_eq_false_iff_not]
  simp only [legacyFarRecord, squareViewport]
  norm_num

/-- C2 counterexample: migrating `legacyFarRecord` (coordinates `3000` on a
`1000 × 1000` viewport) once yields coordinate `3`, still above the `2.0`
detection threshold, so a second migration divides again, producing `3/1000`;
applying the operation twice does not equal applying it once. -/
theorem migratePixelToNormalized_twice_ne_once :
    migratePixelToNormalized
        (migratePixelToNormalized legacyFarRecord (some squareViewport)) (some squareViewport)
      ≠ migratePixelToNormalized legacyFarRecord (some squareViewport) := by
  intro h
  have hs : (migratePixelToNormalized
        (migratePixelToNormalized legacyFarRecord (some squareViewport))
        (some squareViewport)).coordinates.startX
      = (migratePixelToNormalized legacyFarRecord (some squareViewport)).coordinates.startX := by
    rw [h]
  rw [migrate_coords_of_not_normalized _ _ legacyFarRecord_migrated_not_normalized,
    migrate_coords_of_not_normalized _ _ legacyFarRecord_not_normalized] at hs
  simp only [legacyFarRecord, squareViewport] at hs
  norm_num at hs

/-- C2 amended: `migratePixelToNormalized` is idempotent for every record whose
coordinates are bounded in magnitude by twice the (positive) viewport
dimensions — then the migrated coordinates fall within the `2.0` detection
threshold and the second invocation is a no-op.  (Records already classified
as normalized are covered: their coordinates are bounded by `2 ≤ 2·width`.) -/
theorem migratePixelToNormalized_idempotent (a : Annotation) (vp : Viewport)
    (hw : 0 < vp.width) (hh : 0 < vp.height)
    (h1 : |a.coordinates.startX| ≤ 2 * vp.width)
    (h2 : |a.coordinates.startY| ≤ 2 * vp.height)
    (h3 : |a.coordinates.endX| ≤ 2 * vp.width)
    (h4 : |a.coordinates.endY| ≤ 2 * vp.height) :
    migratePixelToNormalized (migratePixelToNormalized a (some vp)) (some vp)
      = migratePixelToNormalized a (some vp) := by
  by_cases h : areCoordinatesNormalized a (some vp) = true
  · rw [migrate_of_normalized a _ h, migrate_of_normalized a _ h]
  · have h' : areCoordinatesNormalized a (some vp) = false := by
      simpa using h
    have hdiv : ∀ c w : ℚ, 0 < w → |c| ≤ 2 * w → |c / w| ≤ 2 := by
      intro c w hwpos hc
      rw [abs_div, abs_of_pos hwpos, div_le_iff₀ hwpos]
      linarith [hc]
    apply migrate_of_normalized
    simp only [areCoordinatesNormalized, migrate_coords_of_not_normalized a vp h',
      decide_eq_true_eq]
    exact max_le (max_le (hdiv _ _ hw h1) (hdiv _ _ hh h2))
      (max_le (hdiv _ _ hw h3) (hdiv _ _ hh h4))

/-- A legacy pixel-space record within twice the viewport bounds. -/
def legacyNearRecord : Annotation :=
  { id := 2, type := AnnotationType.highlight, color := "#ffff00",
    coordinates := { startX := 500, startY := 500, endX := 900, endY := 900 },
    page := 1 }

/-- Witness for the amended C2 at a concrete in-bounds legacy record. -/
theorem migratePixelToNormalized_idempotent_witness :
    (0 : ℚ) < squareViewport.width ∧ (0 : ℚ) < squareViewport.height ∧
    |legacyNearRecord.coordinates.startX| ≤ 2 * squareViewport.width ∧
    |legacyNearRecord.coordinates.startY| ≤ 2 * squareViewport.height ∧
    |legacyNearRecord.coordinates.endX| ≤ 2 * squareViewport.width ∧
    |legacyNearRecord.coordinates.endY| ≤ 2 * squareViewport.height ∧
    migratePixelToNormalized
        (migratePixelToNormalized legacyNearRecord (some squareViewport)) (some squareViewport)
      = migratePixelToNormalized legacyNearRecord (some squareViewport) :=
  ⟨by norm_num [squareViewport], by norm_num [squareViewport],
    by norm_num [legacyNearRecord, squareViewport],
    by norm_num [legacyNearRecord, squareViewport],
    by norm_num [legacyNearRecord, squareViewport],
    by norm_num [legacyNearRecord, squareViewport],
    migratePixelToNormalized_idempotent legacyNearRecord squareViewport
      (by norm_num [squareViewport]) (by norm_num [squareViewport])
      (by norm_num [legacyNearRecord, squareViewport])
      (by norm_num [legacyNearRecord, squareViewport])
      (by norm_num [legacyNearRecord, squareViewport])
      (by norm_num [legacyNearRecord, squareViewport])⟩

/-- Squared version of `distanceToLineSegment(px, py, x1, y1, x2, y2)`:
branch for branch the source function with the final `Math.sqrt` removed (the
source returns the square root of this value; `sqrt` is monotone, so the
source comparison `distance <= 10` is the comparison `<= 100` on this value,
proved as part of the draw hit-test theorem). -/
def distanceToLineSegmentSq (px py x1 y1 x2 y2 : ℚ) : ℚ :=
  let A := px - x1
  let B := py - y1
  let C := x2 - x1
  let D := y2 - y1
  let dot := A * C + B * D
  let lenSq := C * C + D * D
  if lenSq = 0 then A * A + B * B
  else
    let param := dot / lenSq
    let closest : Point :=
      if param < 0 then { x := x1, y := y1 }
      else if param > 1 then { x := x2, y := y2 }
      else { x := x1 + param * C, y := y1 + param * D }
    let dx := px - closest.x
    let dy := py - closest.y
    dx * dx + dy * dy

/-- Modelled from the specification text for §4.3 `draw` hit testing: clamp the
projection parameter to `[0,1]`, compute the closest point, return the
(squared) Euclidean distance.  For a degenerate segment the rational division
by the zero squared length yields parameter `0`, i.e. the first endpoint. -/
def specSegmentDistanceSq (px py x1 y1 x2 y2 : ℚ) : ℚ :=
  let t := min 1 (max 0
    (((px - x1) * (x2 - x1) + (py - y1) * (y2 - y1)) /
      ((x2 - x1) * (x2 - x1) + (y2 - y1) * (y2 - y1))))
  let cx := x1 + t * (x2 - x1)
  let cy := y1 + t * (y2 - y1)
  (px - cx) * (px - cx) + (py - cy) * (py - cy)

/-- The `draw` branch of `getAnnotationAtPoint`: walk consecutive path point
pairs, transform both to canvas space, and succeed on the first segment whose
distance to the query point is at most 10 device pixels.  Paths with fewer
than two points yield no hit (the source loop body never runs). -/
def pathHit (x y : ℚ) (viewport : Viewport) : List Point → Bool
  | p1 :: p2 :: rest =>
    let point1 := normalizedToCanvas p1.x p1.y viewport
    let point2 := normalizedToCanvas p2.x p2.y viewport
    if distanceToLineSegmentSq x y point1.x point1.y point2.x point2.y ≤ 100 then true
    else pathHit x y viewport (p2 :: rest)
  | _ => false

/-- The body of the `getAnnotationAtPoint` candidate loop: migrate the record,
transform its coordinates to canvas space, and dispatch the per-type geometry
test (`note`: fixed 24-pixel square at the transformed start point; `draw`:
segment distance at most 10; rectangle types: containment in the min/max box). -/
def annotationHitTest ( annotation : Annotation) (x y : ℚ) (viewport : Viewport) : Bool :=
  let m := migratePixelToNormalized annotation (some viewport)
  let canvasStart := normalizedToCanvas m.coordinates.startX m.coordinates.startY viewport
  let canvasEnd := normalizedToCanvas m.coordinates.endX m.coordinates.endY viewport
  let startX := min canvasStart.x canvasEnd.x
  let startY := min canvasStart.y canvasEnd.y
  let endX := max canvasStart.x canvasEnd.x
  let endY := max canvasStart.y canvasEnd.y
  match annotation.type with
  | AnnotationType.note =>
    let noteSize : ℚ := 24
    decide (canvasStart.x ≤ x ∧ x ≤ canvasStart.x + noteSize ∧
      canvasStart.y ≤ y ∧ y ≤ canvasStart.y + noteSize)
  | AnnotationType.draw =>
    match m.path with
    | some path => pathHit x y viewport path
    | none => false
  | _ => decide (startX ≤ x ∧ x ≤ endX ∧ startY ≤ y ∧ y ≤ endY)

/-- The annotation store: the `Map` from page keys to insertion-ordered record
lists, modelled as an association list in key-insertion order. -/
abbrev AnnotationStore := List (Nat × List Annotation)

/-- Source `this.annotations.get(page_N) || []`. -/
def pageAnnotationsOf (store : AnnotationStore) (pageNum : Nat) : List Annotation :=
  ((store.find? (fun e => e.fst == pageNum)).map Prod.snd).getD []

/-- Source `getAnnotationAtPoint(pageNum, x, y, viewport)`: scan the page's records in
reverse insertion order and return the first hit, `null` (`none`) otherwise. -/
def getAnnotationAtPoint (store : AnnotationStore) (pageNum : Nat) (x y : ℚ)
    (viewport : Viewport) : Option Annotation :=
  (pageAnnotationsOf store pageNum).reverse.find?
    (fun annotation => annotationHitTest annotation x y viewport)

/-- C10: `distanceToLineSegment` on a degenerate segment whose endpoints
coincide skips the division branch (`lenSq = 0`) and returns the Euclidean
distance from the query point to that endpoint — here in squared form: the
squared distance to `(x1, y1)`.  The Lean definition is total, mirroring
totality of the source over finite numeric input. -/
theorem distanceToLineSegmentSq_degenerate (px py x1 y1 : ℚ) :
    distanceToLineSegmentSq px py x1 y1 x1 y1
      = (px - x1) * (px - x1) + (py - y1) * (py - y1) := by
  simp [distanceToLineSegmentSq]

/-- C5: for a `note` annotation the hit test succeeds at device point `(x, y)`
iff the point lies in the square of side `24` device pixels anchored at the
transformed `(startX, startY)` — the literal constant `24`, for every viewport
(so the device-pixel size never changes with zoom). -/
theorem noteHitTest_iff (a : Annotation) (x y : ℚ) (v : Viewport)
    (h : a.type = AnnotationType.note) :
    annotationHitTest a x y v = true ↔
      ((normalizedToCanvas (migratePixelToNormalized a (some v)).coordinates.startX
          (migratePixelToNormalized a (some v)).coordinates.startY v).x ≤ x ∧
       x ≤ (normalizedToCanvas (migratePixelToNormalized a (some v)).coordinates.startX
          (migratePixelToNormalized a (some v)).coordinates.startY v).x + 24 ∧
       (normalizedToCanvas (migratePixelToNormalized a (some v)).coordinates.startX
          (migratePixelToNormalized a (some v)).coordinates.startY v).y ≤ y ∧
       y ≤ (normalizedToCanvas (migratePixelToNormalized a (some v)).coordinates.startX
          (migratePixelToNormalized a (some v)).coordinates.startY v).y + 24) := by
  simp only [annotationHitTest, h, decide_eq_true_eq]

/-- A concrete note record at normalized `(0.5, 0.5)` with the 24-pixel square
expressed in normalized units of a `1000 × 1000` creation viewport. -/
def sampleNote : Annotation :=
  { id := 3, type := AnnotationType.note, color := "#ffd700",
    coordinates := { startX := 1/2, startY := 1/2,
                     endX := 1/2 + 24/1000, endY := 1/2 + 24/1000 },
    page := 1, content := some "" }

/-- Record `sampleNote` is classified as already normalized on the square viewport. -/
theorem sampleNote_normalized :
    areCoordinatesNormalized sampleNote (some squareViewport) = true := by
  simp only [areCoordinatesNormalized, sampleNote, decide_eq_true_eq]
  norm_num [abs_le]

/-- Witness for C5: `sampleNote` anchored at device `(500, 500)` on the
`1000 × 1000` viewport is hit at `(510, 505)`, inside its 24-pixel square. -/
theorem noteHitTest_iff_witness :
    sampleNote.type = AnnotationType.note ∧
    annotationHitTest sampleNote 510 505 squareViewport = true :=
  ⟨rfl, by
    rw [noteHitTest_iff sampleNote 510 505 squareViewport rfl,
      migrate_of_normalized sampleNote _ sampleNote_normalized]
    simp only [sampleNote, normalizedToCanvas, squareViewport]
    norm_num⟩

/-- C3: `getAnnotationAtPoint` walks the page's records in reverse insertion
order: (1) with a page holding exactly the rectangle annotations `[a, b]` in
insertion order and a query point hitting both (a point of their overlap), it
returns the later-inserted `b`; (2) when no record on the page is hit — in
particular on an empty page — it returns `none`. -/
theorem getAnnotationAtPoint_topmost :
    (∀ (store : AnnotationStore) (pageNum : Nat) (a b : Annotation) (x y : ℚ) (v : Viewport),
      pageAnnotationsOf store pageNum = [a, b] →
      (a.type = AnnotationType.highlight ∨ a.type = AnnotationType.underline ∨
        a.type = AnnotationType.strikethrough) →
      (b.type = AnnotationType.highlight ∨ b.type = AnnotationType.underline ∨
        b.type = AnnotationType.strikethrough) →
      annotationHitTest a x y v = true →
      annotationHitTest b x y v = true →
      getAnnotationAtPoint store pageNum x y v = some b) ∧
    (∀ (store : AnnotationStore) (pageNum : Nat) (x y : ℚ) (v : Viewport),
      (∀ a ∈ pageAnnotationsOf store pageNum, annotationHitTest a x y v = false) →
      getAnnotationAtPoint store pageNum x y v = none) := by
  constructor
  · intro store pageNum a b x y v hpage ha hb hahit hbhit
    unfold getAnnotationAtPoint
    rw [hpage, show ([a, b]).reverse = [b, a] from by simp]
    exact List.find?_cons_of_pos _ hbhit
  · intro store pageNum x y v hnone
    unfold getAnnotationAtPoint
    rw [List.find?_eq_none]
    intro a ha
    rw [List.mem_reverse] at ha
    simp [hnone a ha]

/-- First of two overlapping highlights: normalized box `(0.1, 0.1)–(0.5, 0.5)`. -/
def lowerHighlight : Annotation :=
  { id := 4, type := AnnotationType.highlight, color := "#ffff00",
    coordinates := { startX := 1/10, startY := 1/10, endX := 1/2, endY := 1/2 },
    page := 1 }

/-- Second, later-inserted overlapping highlight: normalized box
`(0.2, 0.2)–(0.6, 0.6)`. -/
def upperHighlight : Annotation :=
  { id := 5, type := AnnotationType.highlight, color := "#00ff00",
    coordinates := { startX := 1/5, startY := 1/5, endX := 3/5, endY := 3/5 },
    page := 1 }

/-- A store whose page 1 holds the two overlapping highlights in insertion
order, and whose page 2 is empty. -/
def overlapStore : AnnotationStore := [(1, [lowerHighlight, upperHighlight]), (2, [])]

/-- Record `lowerHighlight` is hit at device point `(300, 300)` on the square viewport. -/
theorem lowerHighlight_hit :
    annotationHitTest lowerHighlight 300 300 squareViewport = true := by
  have hm : migratePixelToNormalized lowerHighlight (some squareViewport) = lowerHighlight := by
    apply migrate_of_normalized
    simp only [areCoordinatesNormalized, lowerHighlight, decide_eq_true_eq]
    norm_num [abs_le]
  have ht : lowerHighlight.type = AnnotationType.highlight := rfl
  simp only [annotationHitTest, hm, ht, decide_eq_true_eq]
  simp only [lowerHighlight, normalizedToCanvas, squareViewport]
  norm_num [min_def, max_def]

/-- Record `upperHighlight` is hit at device point `(300, 300)` on the square viewport. -/
theorem upperHighlight_hit :
    annotationHitTest upperHighlight 300 300 squareViewport = true := by
  have hm : migratePixelToNormalized upperHighlight (some squareViewport) = upperHighlight := by
    apply migrate_of_normalized
    simp only [areCoordinatesNormalized, upperHighlight, decide_eq_true_eq]
    norm_num [abs_le]
  have ht : upperHighlight.type = AnnotationType.highlight := rfl
  simp only [annotationHitTest, hm, ht, decide_eq_true_eq]
  simp only [upperHighlight, normalizedToCanvas, squareViewport]
  norm_num [min_def, max_def]

/-- Witness for C3: at `(300, 300)` — inside the overlap of the two highlights
on page 1 — the later-inserted `upperHighlight` is returned; on the empty
page 2, querying `(50, 50)` returns `none`. -/
theorem getAnnotationAtPoint_topmost_witness :
    pageAnnotationsOf overlapStore 1 = [lowerHighlight, upperHighlight] ∧
    getAnnotationAtPoint overlapStore 1 300 300 squareViewport = some upperHighlight ∧
    pageAnnotationsOf overlapStore 2 = [] ∧
    getAnnotationAtPoint overlapStore 2 50 50 squareViewport = none :=
  ⟨by simp [pageAnnotationsOf, overlapStore, List.find?],
    getAnnotationAtPoint_topmost.1 overlapStore 1 lowerHighlight upperHighlight 300 300
      squareViewport (by simp [pageAnnotationsOf, overlapStore, List.find?])
      (Or.inl rfl) (Or.inl rfl) lowerHighlight_hit upperHighlight_hit,
    by simp [pageAnnotationsOf, overlapStore, List.find?],
    getAnnotationAtPoint_topmost.2 overlapStore 2 50 50 squareViewport
      (by simp [pageAnnotationsOf, overlapStore, List.find?])⟩

/-- Predicate `pathHit` succeeds iff some consecutive pair of path points, transformed
to canvas space, lies within squared distance `100` of the query point. -/
theorem pathHit_iff (x y : ℚ) (v : Viewport) :
    ∀ path : List Point, pathHit x y v path = true ↔
      ∃ pq ∈ path.zip path.tail,
        distanceToLineSegmentSq x y
          (normalizedToCanvas pq.1.x pq.1.y v).x (normalizedToCanvas pq.1.x pq.1.y v).y
          (normalizedToCanvas pq.2.x pq.2.y v).x (normalizedToCanvas pq.2.x pq.2.y v).y ≤ 100
  | [] => by simp [pathHit]
  | [p] => by simp [pathHit]
  | p :: q :: rest => by
    have ih := pathHit_iff x y v (q :: rest)
    simp only [pathHit, List.tail_cons, List.zip_cons_cons]
    rw [List.tail_cons] at ih
    constructor
    · intro h
      split at h
      case isTrue hd => exact ⟨(p, q), List.mem_cons_self _ _, hd⟩
      case isFalse hd =>
        obtain ⟨pq, hmem, hle⟩ := ih.mp h
        exact ⟨pq, List.mem_cons_of_mem _ hmem, hle⟩
    · rintro ⟨pq, hmem, hle⟩
      rcases List.mem_cons.mp hmem with heq | hmem2
      · subst heq
        rw [if_pos hle]
      · split
        · rfl
        · exact ih.mpr ⟨pq, hmem2, hle⟩

/-- C4: (1) the source segment-distance computation equals the specification
formula — clamp the projection parameter to `[0,1]`, take the closest point,
return the (squared) Euclidean distance; (2) for a `draw` annotation whose
migrated record carries path `path`, the hit test succeeds at device point
`(x, y)` iff the Euclidean point-to-segment distance (the square root of the
squared distance) to some segment of the canvas-transformed polyline is at
most `10` device pixels. -/
theorem drawHitTest_iff :
    (∀ px py x1 y1 x2 y2 : ℚ,
      distanceToLineSegmentSq px py x1 y1 x2 y2 = specSegmentDistanceSq px py x1 y1 x2 y2) ∧
    (∀ (a : Annotation) (x y : ℚ) (v : Viewport) (path : List Point),
      a.type = AnnotationType.draw →
      (migratePixelToNormalized a (some v)).path = some path →
      (annotationHitTest a x y v = true ↔
        ∃ pq ∈ path.zip path.tail,
          Real.sqrt ((distanceToLineSegmentSq x y
            (normalizedToCanvas pq.1.x pq.1.y v).x (normalizedToCanvas pq.1.x pq.1.y v).y
            (normalizedToCanvas pq.2.x pq.2.y v).x (normalizedToCanvas pq.2.x pq.2.y v).y
            : ℚ) : ℝ) ≤ 10)) := by
  constructor
  · intro px py x1 y1 x2 y2
    simp only [distanceToLineSegmentSq, specSegmentDistanceSq]
    by_cases hlen : (x2 - x1) * (x2 - x1) + (y2 - y1) * (y2 - y1) = 0
    · have hC : x2 - x1 = 0 := by
        nlinarith [mul_self_nonneg (x2 - x1), mul_self_nonneg (y2 - y1)]
      have hD : y2 - y1 = 0 := by
        nlinarith [mul_self_nonneg (x2 - x1), mul_self_nonneg (y2 - y1)]
      rw [if_pos hlen, hC, hD]
      norm_num
    · rw [if_neg hlen]
      set param := ((px - x1) * (x2 - x1) + (py - y1) * (y2 - y1)) /
        ((x2 - x1) * (x2 - x1) + (y2 - y1) * (y2 - y1)) with hparam
      by_cases h0 : param < 0
      · rw [if_pos h0, max_eq_left h0.le, min_eq_right (zero_le_one)]
        dsimp only
        ring
      · rw [if_neg h0, max_eq_right (not_lt.mp h0)]
        by_cases h1 : param > 1
        · rw [if_pos h1, min_eq_left h1.le]
          dsimp only
          ring
        · rw [if_neg h1, min_eq_right (not_lt.mp h1)]
  · intro a x y v path htype hpath
    have hunfold : annotationHitTest a x y v = pathHit x y v path := by
      simp only [annotationHitTest, htype, hpath]
    rw [hunfold, pathHit_iff]
    have hsqrt : ∀ d : ℚ, (Real.sqrt (d : ℝ) ≤ 10 ↔ d ≤ 100) := by
      intro d
      have h100 : ((10 : ℝ)) ^ 2 = ((100 : ℚ) : ℝ) := by norm_num
      rw [Real.sqrt_le_left (by norm_num : (0 : ℝ) ≤ 10), h100, Rat.cast_le]
    simp only [hsqrt]

/-- A two-point normalized freehand path: a horizontal segment from
`(0.1, 0.1)` to `(0.3, 0.1)`. -/
def samplePath : List Point := [{ x := 1/10, y := 1/10 }, { x := 3/10, y := 1/10 }]

/-- A concrete `draw` annotation carrying `samplePath` with its bounding-box
coordinates. -/
def sampleDraw : Annotation :=
  { id := 6, type := AnnotationType.draw, color := "#0000ff",
    coordinates := { startX := 1/10, startY := 1/10, endX := 3/10, endY := 1/10 },
    path := some samplePath, page := 1 }

/-- Record `sampleDraw` passes through migration unchanged on the square viewport, so
its migrated path is `samplePath`. -/
theorem sampleDraw_migrated_path :
    (migratePixelToNormalized sampleDraw (some squareViewport)).path = some samplePath := by
  rw [migrate_of_normalized]
  · rfl
  · simp only [areCoordinatesNormalized, sampleDraw, decide_eq_true_eq]
    norm_num [abs_le]

/-- The squared distance from device point `(200, 100)` to the transformed
`samplePath` segment `(100, 100)–(300, 100)` is `0`. -/
theorem sampleDraw_segment_distSq :
    distanceToLineSegmentSq 200 100
      (normalizedToCanvas (1/10) (1/10) squareViewport).x
      (normalizedToCanvas (1/10) (1/10) squareViewport).y
      (normalizedToCanvas (3/10) (1/10) squareViewport).x
      (normalizedToCanvas (3/10) (1/10) squareViewport).y = 0 := by
  norm_num [distanceToLineSegmentSq, normalizedToCanvas, squareViewport]

/-- Witness for C4: the query point `(200, 100)` lies on the transformed
`samplePath` segment, so its distance is `0 <= 10` and the hit test succeeds. -/
theorem drawHitTest_iff_witness :
    sampleDraw.type = AnnotationType.draw ∧
    (migratePixelToNormalized sampleDraw (some squareViewport)).path = some samplePath ∧
    annotationHitTest sampleDraw 200 100 squareViewport = true :=
  ⟨rfl, sampleDraw_migrated_path,
    (drawHitTest_iff.2 sampleDraw 200 100 squareViewport samplePath rfl
      sampleDraw_migrated_path).mpr
      ⟨({ x := 1/10, y := 1/10 }, { x := 3/10, y := 1/10 }),
        by simp [samplePath],
        by rw [sampleDraw_segment_distSq]; simp⟩⟩

/-- Constant `COLORS.UNDERLINE_RED` from `config.js`. -/
def UNDERLINE_RED : String := "#ff0000"

/-- Constant `COLORS.NOTE_BACKGROUND` from `config.js`. -/
def NOTE_BACKGROUND : String := "#ffd700"

/-- The bounding box record returned by `Utils.calculateBoundingBox`. -/
structure BoundingBox where
  minX : ℚ
  minY : ℚ
  maxX : ℚ
  maxY : ℚ
  deriving DecidableEq, Repr

/-- Source `Utils.calculateBoundingBox(path)`: `null` for an absent or empty path,
otherwise fold min/max over every point starting from the first point. -/
def calculateBoundingBox : List Point → Option BoundingBox
  | [] => none
  | p :: rest => some ((p :: rest).foldl
      (fun box q =>
        { minX := min box.minX q.x, minY := min box.minY q.y,
          maxX := max box.maxX q.x, maxY := max box.maxY q.y })
      { minX := p.x, minY := p.y, maxX := p.x, maxY := p.y })

/-- Source `this.annotations.set(pageKey, [])` when absent: materialize the page
entry without touching existing entries (new `Map` keys append in insertion
order). -/
def ensurePage : AnnotationStore → Nat → AnnotationStore
  | [], pageNum => [(pageNum, [])]
  | (k, l) :: rest, pageNum =>
    if k = pageNum then (k, l) :: rest
    else (k, l) :: ensurePage rest pageNum

/-- Source `this.annotations.get(pageKey).push(annotation)` (creating the page entry
first when absent). -/
def addToPage : AnnotationStore → Nat → Annotation → AnnotationStore
  | [], pageNum, a => [(pageNum, [a])]
  | (k, l) :: rest, pageNum, a =>
    if k = pageNum then (k, l ++ [a]) :: rest
    else (k, l) :: addToPage rest pageNum a

/-- The record literal built by `createAnnotation`: min/max of the two gesture
endpoints, with the underline color override. -/
def boxRecord (pageNum : Nat) (startX startY endX endY : ℚ) (tool : AnnotationType)
    (color : String) (id : Nat) (timestamp : String) : Annotation :=
  let annotationColor := if tool = AnnotationType.underline then UNDERLINE_RED else color
  { id := id, type := tool, color := annotationColor,
    coordinates :=
      { startX := min startX endX, startY := min startY endY,
        endX := max startX endX, endY := max startY endY },
    page := pageNum, timestamp := timestamp }

/-- Source `createAnnotation(pageNum, startX, startY, endX, endY, tool, color)`
(identifier and timestamp supplied by `Utils.generateId()` / `Date`, modelled
as arguments). -/
def createAnnotation (store : AnnotationStore) (pageNum : Nat) (startX startY endX endY : ℚ)
    (tool : AnnotationType) (color : String) (id : Nat) (timestamp : String) : AnnotationStore :=
  addToPage (ensurePage store pageNum) pageNum
    (boxRecord pageNum startX startY endX endY tool color id timestamp)

/-- The record literal built by `createDrawAnnotation` from the path's
bounding box. -/
def drawRecord (pageNum : Nat) (boundingBox : BoundingBox) (path : List Point)
    (color : String) (id : Nat) (timestamp : String) : Annotation :=
  { id := id, type := AnnotationType.draw, color := color,
    coordinates :=
      { startX := boundingBox.minX, startY := boundingBox.minY,
        endX := boundingBox.maxX, endY := boundingBox.maxY },
    path := some path, page := pageNum, timestamp := timestamp }

/-- Source `createDrawAnnotation(pageNum, path, color)`: materialize the page entry,
then bail out without a record when the bounding box is `null` (empty path). -/
def createDrawAnnotation (store : AnnotationStore) (pageNum : Nat) (path : List Point)
    (color : String) (id : Nat) (timestamp : String) : AnnotationStore :=
  let store1 := ensurePage store pageNum
  match calculateBoundingBox path with
  | none => store1
  | some boundingBox =>
    addToPage store1 pageNum (drawRecord pageNum boundingBox path color id timestamp)

/-- The record literal built by `createNoteAnnotation`: a 24-device-pixel
square converted to normalized units of the current viewport, or the fallback
`0.02` when no viewport is available. -/
def noteRecord (pageNum : Nat) (normalizedX normalizedY : ℚ) (viewport : Option Viewport)
    (id : Nat) (timestamp : String) : Annotation :=
  let noteWidth := match viewport with
    | none => (2 : ℚ) / 100
    | some v => 24 / v.width
  let noteHeight := match viewport with
    | none => (2 : ℚ) / 100
    | some v => 24 / v.height
  { id := id, type := AnnotationType.note, color := NOTE_BACKGROUND,
    coordinates :=
      { startX := normalizedX, startY := normalizedY,
        endX := normalizedX + noteWidth, endY := normalizedY + noteHeight },
    page := pageNum, content := some "", timestamp := timestamp }

/-- Source `createNoteAnnotation(pageNum, normalizedX, normalizedY)`. -/
def createNoteAnnotation (store : AnnotationStore) (pageNum : Nat)
    (normalizedX normalizedY : ℚ) (viewport : Option Viewport)
    (id : Nat) (timestamp : String) : AnnotationStore :=
  addToPage (ensurePage store pageNum) pageNum
    (noteRecord pageNum normalizedX normalizedY viewport id timestamp)

/-- The `draw` branch of the `mouseup` handler: commit the accumulated stroke
only when `currentStroke.length > 1`, converting each point to normalized
space through `canvasToNormalized`; otherwise the gesture is discarded and the
store is left untouched (no record, no error signal). -/
def commitDrawGesture (store : AnnotationStore) (pageNum : Nat) (currentStroke : List Point)
    (color : String) (viewport : Viewport) (id : Nat) (timestamp : String) : AnnotationStore :=
  if currentStroke.length > 1 then
    createDrawAnnotation store pageNum
      (currentStroke.map (fun point => canvasToNormalized point.x point.y viewport))
      color id timestamp
  else store

/-- Source `deleteAnnotation(annotationId)`: for every page entry, find the first
record whose id matches and splice it out; entries without a match are kept
as they are.  The source method returns `undefined` — no removed/not-found
boolean — which the model reflects by returning only the updated store. -/
def removeFirstById (annotationId : Nat) : List Annotation → List Annotation
  | [] => []
  | a :: rest => if a.id = annotationId then rest else a :: removeFirstById annotationId rest

/-- Source `deleteAnnotation` over the whole store (the `this.annotations.forEach`
loop, rendering side effects omitted). -/
def deleteAnnotation (store : AnnotationStore) (annotationId : Nat) : AnnotationStore :=
  store.map (fun e => (e.fst, removeFirstById annotationId e.snd))

/-- Total number of records across all pages. -/
def countAll (store : AnnotationStore) : Nat :=
  (store.map (fun e => e.snd.length)).sum

/-- Number of records with a given id across all pages. -/
def countWithId (store : AnnotationStore) (annotationId : Nat) : Nat :=
  (store.map (fun e => (e.snd.filter (fun a => a.id == annotationId)).length)).sum

/-- C6: releasing a draw stroke whose accumulator holds exactly one point
creates no record: the store is returned unchanged, silently (no page entry
is even materialized, because `createDrawAnnotation` is never called). -/
theorem commitDrawGesture_single_point (store : AnnotationStore) (pageNum : Nat)
    (currentStroke : List Point) (color : String) (v : Viewport) (id : Nat) (ts : String)
    (h : currentStroke.length = 1) :
    commitDrawGesture store pageNum currentStroke color v id ts = store := by
  simp [commitDrawGesture, h]

/-- Witness for C6: a one-point stroke on an empty store leaves it empty. -/
theorem commitDrawGesture_single_point_witness :
    ([({ x := 5, y := 5 } : Point)]).length = 1 ∧
    commitDrawGesture [] 1 [{ x := 5, y := 5 }] "#0000ff" squareViewport 9 "t" = [] :=
  ⟨rfl, commitDrawGesture_single_point [] 1 [{ x := 5, y := 5 }] "#0000ff" squareViewport 9 "t" rfl⟩

/-- A store holding the same id `7` on two different pages. -/
def duplicateIdStore : AnnotationStore :=
  [(1, [{ id := 7, type := AnnotationType.highlight, color := "#ffff00",
          coordinates := { startX := 0, startY := 0, endX := 1, endY := 1 }, page := 1 }]),
   (2, [{ id := 7, type := AnnotationType.highlight, color := "#ffff00",
          coordinates := { startX := 0, startY := 0, endX := 1, endY := 1 }, page := 2 }])]

/-- C7 counterexample: `deleteAnnotation` splices the first match out of
*every* page, so one call on a store holding id `7` on two pages removes two
records — not at most one.  (The source also returns `undefined`, never the
claimed removed/not-removed boolean.) -/
theorem deleteAnnotation_removes_two :
    countAll duplicateIdStore = 2 ∧ countAll ( deleteAnnotation duplicateIdStore 7) = 0 :=
  ⟨rfl, rfl⟩

/-- A page list without the id passes through `removeFirstById` unchanged. -/
theorem removeFirstById_of_absent (annotationId : Nat) :
    ∀ l : List Annotation, (l.filter (fun a => a.id == annotationId)).length = 0 →
      removeFirstById annotationId l = l
  | [] => fun _ => rfl
  | a :: rest => fun h => by
    by_cases ha : a.id = annotationId
    · exfalso
      simp [List.filter_cons, ha] at h
    · have hb : (a.id == annotationId) = false := by simp [ha]
      simp only [removeFirstById, if_neg ha]
      rw [removeFirstById_of_absent annotationId rest (by simpa [List.filter_cons, hb] using h)]

/-- Removing from a page list that holds the id exactly once shortens it by
one and leaves no record with that id. -/
theorem removeFirstById_of_unique (annotationId : Nat) :
    ∀ l : List Annotation, (l.filter (fun a => a.id == annotationId)).length = 1 →
      (removeFirstById annotationId l).length + 1 = l.length ∧
      ((removeFirstById annotationId l).filter (fun a => a.id == annotationId)).length = 0
  | [] => fun h => by simp at h
  | a :: rest => fun h => by
    by_cases ha : a.id = annotationId
    · have hb : (a.id == annotationId) = true := by simp [ha]
      have hrest : (rest.filter (fun a => a.id == annotationId)).length = 0 := by
        simpa [List.filter_cons, hb] using h
      simp only [removeFirstById, if_pos ha, List.length_cons]
      exact ⟨by simp, hrest⟩
    · have hb : (a.id == annotationId) = false := by simp [ha]
      have hrest : (rest.filter (fun a => a.id == annotationId)).length = 1 := by
        simpa [List.filter_cons, hb] using h
      obtain ⟨h1, h2⟩ := removeFirstById_of_unique annotationId rest hrest
      simp only [removeFirstById, if_neg ha, List.length_cons, List.filter_cons, hb]
      exact ⟨by omega, h2⟩

/-- A store without the id passes through `deleteAnnotation` unchanged. -/
theorem deleteAnnotation_of_absent :
    ∀ (store : AnnotationStore) (annotationId : Nat),
      countWithId store annotationId = 0 → deleteAnnotation store annotationId = store
  | [], _ => fun _ => rfl
  | e :: rest, annotationId => fun h => by
    simp only [countWithId, List.map_cons, List.sum_cons] at h
    have he : (e.snd.filter (fun a => a.id == annotationId)).length = 0 := by omega
    have hrest : countWithId rest annotationId = 0 := by
      simp only [countWithId]
      omega
    have ih := deleteAnnotation_of_absent rest annotationId hrest
    simp only [ deleteAnnotation, List.map_cons] at ih ⊢
    rw [removeFirstById_of_absent annotationId e.snd he, ih]

/-- Deleting an id that occurs exactly once removes exactly one record and
leaves the id absent. -/
theorem deleteAnnotation_of_unique :
    ∀ (store : AnnotationStore) (annotationId : Nat),
      countWithId store annotationId = 1 →
      countAll ( deleteAnnotation store annotationId) + 1 = countAll store ∧
      countWithId ( deleteAnnotation store annotationId) annotationId = 0
  | [], annotationId => fun h => by simp [countWithId] at h
  | e :: rest, annotationId => fun h => by
    simp only [countWithId, List.map_cons, List.sum_cons] at h
    by_cases he : (e.snd.filter (fun a => a.id == annotationId)).length = 0
    · have hrest : countWithId rest annotationId = 1 := by
        simp only [countWithId]
        omega
      obtain ⟨ih1, ih2⟩ := deleteAnnotation_of_unique rest annotationId hrest
      simp only [ deleteAnnotation, countAll, countWithId, List.map_cons, List.sum_cons]
        at ih1 ih2 ⊢
      rw [removeFirstById_of_absent annotationId e.snd he]
      exact ⟨by omega, by omega⟩
    · have he1 : (e.snd.filter (fun a => a.id == annotationId)).length = 1 := by omega
      have hrest : countWithId rest annotationId = 0 := by
        simp only [countWithId]
        omega
      obtain ⟨hl, hf⟩ := removeFirstById_of_unique annotationId e.snd he1
      have hdel := deleteAnnotation_of_absent rest annotationId hrest
      simp only [ deleteAnnotation] at hdel
      simp only [countWithId] at hrest
      simp only [ deleteAnnotation, countAll, countWithId, List.map_cons, List.sum_cons]
      rw [hdel]
      exact ⟨by omega, by omega⟩

/-- C7 amended: `deleteAnnotation` removes, from each page, the first record
whose id matches, and returns no removed/not-found boolean (the source method
returns `undefined`).  When the id is absent the call is a no-op; when the id
occurs exactly once in the store, the call removes exactly that record, the id
is then absent, and a second call with the same id leaves the store
unchanged. -/
theorem deleteAnnotation_semantics :
    (∀ (store : AnnotationStore) (annotationId : Nat),
      countWithId store annotationId = 0 →
      deleteAnnotation store annotationId = store) ∧
    (∀ (store : AnnotationStore) (annotationId : Nat),
      countWithId store annotationId = 1 →
      countAll ( deleteAnnotation store annotationId) + 1 = countAll store ∧
      countWithId ( deleteAnnotation store annotationId) annotationId = 0 ∧
      deleteAnnotation ( deleteAnnotation store annotationId) annotationId
        = deleteAnnotation store annotationId) := by
  constructor
  · exact fun store annotationId h => deleteAnnotation_of_absent store annotationId h
  · intro store annotationId h
    obtain ⟨h1, h2⟩ := deleteAnnotation_of_unique store annotationId h
    exact ⟨h1, h2, deleteAnnotation_of_absent _ annotationId h2⟩

/-- A store holding id `7` exactly once. -/
def singleIdStore : AnnotationStore :=
  [(1, [{ id := 7, type := AnnotationType.highlight, color := "#ffff00",
          coordinates := { startX := 0, startY := 0, endX := 1, endY := 1 }, page := 1 }])]

/-- Witness for C7 (amended): deleting id `7` from `singleIdStore` removes the
one record; the second deletion finds nothing and changes nothing. -/
theorem deleteAnnotation_semantics_witness :
    countWithId singleIdStore 7 = 1 ∧
    countAll ( deleteAnnotation singleIdStore 7) + 1 = countAll singleIdStore ∧
    countWithId ( deleteAnnotation singleIdStore 7) 7 = 0 ∧
    deleteAnnotation ( deleteAnnotation singleIdStore 7) 7 = deleteAnnotation singleIdStore 7 :=
  ⟨rfl, deleteAnnotation_semantics.2 singleIdStore 7 rfl⟩

/-- The min/max fold of `calculateBoundingBox` preserves the ordering of an
already-ordered box. -/
theorem bboxFold_ordered :
    ∀ (rest : List Point) (box : BoundingBox), box.minX ≤ box.maxX → box.minY ≤ box.maxY →
      ((rest.foldl
        (fun box q =>
          { minX := min box.minX q.x, minY := min box.minY q.y,
            maxX := max box.maxX q.x, maxY := max box.maxY q.y }) box).minX ≤
        (rest.foldl
        (fun box q =>
          { minX := min box.minX q.x, minY := min box.minY q.y,
            maxX := max box.maxX q.x, maxY := max box.maxY q.y }) box).maxX) ∧
      ((rest.foldl
        (fun box q =>
          { minX := min box.minX q.x, minY := min box.minY q.y,
            maxX := max box.maxX q.x, maxY := max box.maxY q.y }) box).minY ≤
        (rest.foldl
        (fun box q =>
          { minX := min box.minX q.x, minY := min box.minY q.y,
            maxX := max box.maxX q.x, maxY := max box.maxY q.y }) box).maxY)
  | [] => fun _ h1 h2 => ⟨h1, h2⟩
  | q :: rest => fun box h1 h2 => by
    simp only [List.foldl_cons]
    exact bboxFold_ordered rest _
      (le_trans (min_le_left _ _) (le_trans h1 (le_max_left _ _)))
      (le_trans (min_le_left _ _) (le_trans h2 (le_max_left _ _)))

/-- A bounding box computed by `calculateBoundingBox` is ordered per axis. -/
theorem calculateBoundingBox_ordered (path : List Point) (bb : BoundingBox)
    (h : calculateBoundingBox path = some bb) :
    bb.minX ≤ bb.maxX ∧ bb.minY ≤ bb.maxY := by
  cases path with
  | nil => simp [calculateBoundingBox] at h
  | cons p rest =>
    simp only [calculateBoundingBox, Option.some.injEq] at h
    subst h
    exact bboxFold_ordered (p :: rest) _ le_rfl le_rfl

/-- C8: every record satisfies `startX <= endX` and `startY <= endY` at
construction: box-tool records take min/max of the two gesture endpoints,
draw records use the path's min/max bounding box, and note records add a
non-negative width/height to the start point (`0.02` without a viewport,
`24/dimension` for a viewport with positive dimensions). -/
theorem createdCoordinates_ordered :
    (∀ (pageNum : Nat) (sX sY eX eY : ℚ) (tool : AnnotationType) (color : String)
        (id : Nat) (ts : String),
      (boxRecord pageNum sX sY eX eY tool color id ts).coordinates.startX ≤
        (boxRecord pageNum sX sY eX eY tool color id ts).coordinates.endX ∧
      (boxRecord pageNum sX sY eX eY tool color id ts).coordinates.startY ≤
        (boxRecord pageNum sX sY eX eY tool color id ts).coordinates.endY) ∧
    (∀ (pageNum : Nat) (path : List Point) (bb : BoundingBox) (color : String)
        (id : Nat) (ts : String),
      calculateBoundingBox path = some bb →
      (drawRecord pageNum bb path color id ts).coordinates.startX ≤
        (drawRecord pageNum bb path color id ts).coordinates.endX ∧
      (drawRecord pageNum bb path color id ts).coordinates.startY ≤
        (drawRecord pageNum bb path color id ts).coordinates.endY) ∧
    (∀ (pageNum : Nat) (nX nY : ℚ) (viewport : Option Viewport) (id : Nat) (ts : String),
      (∀ v ∈ viewport, 0 < v.width ∧ 0 < v.height) →
      (noteRecord pageNum nX nY viewport id ts).coordinates.startX ≤
        (noteRecord pageNum nX nY viewport id ts).coordinates.endX ∧
      (noteRecord pageNum nX nY viewport id ts).coordinates.startY ≤
        (noteRecord pageNum nX nY viewport id ts).coordinates.endY) := by
  refine ⟨?_, ?_, ?_⟩
  · intro pageNum sX sY eX eY tool color id ts
    simp only [boxRecord]
    exact ⟨le_trans (min_le_left _ _) (le_max_left _ _),
      le_trans (min_le_left _ _) (le_max_left _ _)⟩
  · intro pageNum path bb color id ts h
    simpa only [drawRecord] using calculateBoundingBox_ordered path bb h
  · intro pageNum nX nY viewport id ts hv
    cases viewport with
    | none =>
      simp only [noteRecord]
      constructor <;> · apply le_add_of_nonneg_right; norm_num
    | some v =>
      obtain ⟨hw, hh⟩ := hv v rfl
      simp only [noteRecord]
      constructor
      · exact le_add_of_nonneg_right (le_of_lt (div_pos (by norm_num) hw))
      · exact le_add_of_nonneg_right (le_of_lt (div_pos (by norm_num) hh))

/-- The specification's bounding-box example path
`[(0.1, 0.9), (0.5, 0.1), (0.8, 0.6)]`. -/
def specExamplePath : List Point :=
  [{ x := 1/10, y := 9/10 }, { x := 1/2, y := 1/10 }, { x := 8/10, y := 6/10 }]

/-- Evaluating `calculateBoundingBox` on the example path yields
`{minX 0.1, minY 0.1, maxX 0.8, maxY 0.9}`. -/
theorem specExamplePath_bbox :
    calculateBoundingBox specExamplePath
      = some { minX := 1/10, minY := 1/10, maxX := 8/10, maxY := 9/10 } := by
  simp only [specExamplePath, calculateBoundingBox, List.foldl_cons, List.foldl_nil]
  norm_num [min_def, max_def]

/-- Witness for C8: concrete records built by each of the three constructors
have ordered coordinates. -/
theorem createdCoordinates_ordered_witness :
    ((boxRecord 1 (3/10) (3/20) (1/10) (1/10) AnnotationType.highlight "#ffff00"
        10 "t").coordinates.startX ≤
      (boxRecord 1 (3/10) (3/20) (1/10) (1/10) AnnotationType.highlight "#ffff00"
        10 "t").coordinates.endX ∧
     (boxRecord 1 (3/10) (3/20) (1/10) (1/10) AnnotationType.highlight "#ffff00"
        10 "t").coordinates.startY ≤
      (boxRecord 1 (3/10) (3/20) (1/10) (1/10) AnnotationType.highlight "#ffff00"
        10 "t").coordinates.endY) ∧
    (calculateBoundingBox specExamplePath
        = some { minX := 1/10, minY := 1/10, maxX := 8/10, maxY := 9/10 } ∧
     (drawRecord 1 { minX := 1/10, minY := 1/10, maxX := 8/10, maxY := 9/10 }
        specExamplePath "#0000ff" 11 "t").coordinates.startX ≤
      (drawRecord 1 { minX := 1/10, minY := 1/10, maxX := 8/10, maxY := 9/10 }
        specExamplePath "#0000ff" 11 "t").coordinates.endX) ∧
    ((0 : ℚ) < squareViewport.width ∧
     (noteRecord 1 (1/2) (1/2) (some squareViewport) 12 "t").coordinates.startX ≤
      (noteRecord 1 (1/2) (1/2) (some squareViewport) 12 "t").coordinates.endX) :=
  ⟨createdCoordinates_ordered.1 1 (3/10) (3/20) (1/10) (1/10) AnnotationType.highlight
      "#ffff00" 10 "t",
   ⟨specExamplePath_bbox,
    (createdCoordinates_ordered.2.1 1 specExamplePath
      { minX := 1/10, minY := 1/10, maxX := 8/10, maxY := 9/10 } "#0000ff" 11 "t"
      specExamplePath_bbox).1⟩,
   ⟨by norm_num [squareViewport],
    (createdCoordinates_ordered.2.2 1 (1/2) (1/2) (some squareViewport) 12 "t"
      (fun v hv => by
        cases hv
        exact ⟨by norm_num [squareViewport], by norm_num [squareViewport]⟩)).1⟩⟩

end OpenRAG
